import Mathlib

/-!
Shallow embedding of the SolidWrap repository (src/solidwrap/solidwrap.py,
src/solidwrap/containers.py, src/solidwrap/utilities.py) for checking its
natural-language specification.

External COM objects (the SolidWorks client and the PDM vault) are modelled
as explicit state records; the wrapper functions are translated statement by
statement from the Python source, with the calls they issue to the external
processes recorded as explicit values so that claims about which calls are
made can be stated and proved.
-/

namespace SolidWrap

/-- containers.py, SWDocType: enumeration of document types, whose values are
the upper-case file extensions. -/
inductive SWDocType
| PART
| ASSEMBLY
| DRAWING
deriving DecidableEq, Repr, Fintype

/-- containers.py: the string value of each SWDocType member. -/
def SWDocType.value : SWDocType → String
| .PART => "SLDPRT"
| .ASSEMBLY => "SLDASM"
| .DRAWING => "SLDDRW"

/-- containers.py, SWExportFormat: enumeration of supported export formats,
whose values are the output file extensions. -/
inductive SWExportFormat
| DXF
| IMAGE
| PARASOLID
| PDF
| STEP
| STL
deriving DecidableEq, Repr, Fintype

/-- containers.py: the string value of each SWExportFormat member. -/
def SWExportFormat.value : SWExportFormat → String
| .DXF => "dxf"
| .IMAGE => "png"
| .PARASOLID => "x_t"
| .PDF => "pdf"
| .STEP => "step"
| .STL => "stl"

/-- containers.py, SWAuthState: login states of the vault session. -/
inductive SWAuthState
| AUTHORIZED
| UNAUTHORIZED
deriving DecidableEq, Repr

/-- Modelled from the spec: the external quickpathstr Filepath collaborator
(its source is not in this repository) decomposes a file location into
complete path, directory, file name, root ( name without extension ) and
extension ( with its leading period ).  Here it is a plain record of those
fields; the code under test only reads them. -/
structure Filepath where
  complete : String
  directory : String
  name : String
  root : String
  extension : String
deriving DecidableEq, Repr

/-- Python `s.replace('.', '')`: removes every period character from the
string ( kernel-computable embedding over the character list ). -/
def stripDots (s : String) : String :=
  String.mk (s.data.filter (fun c => c ≠ '.'))

/-- Python `str.upper(s)`: maps every character to upper case
( kernel-computable embedding over the character list ). -/
def upperStr (s : String) : String :=
  String.mk (s.data.map Char.toUpper)

/-- containers.py, format_doctype: formats a doctype from a file's extension.
The Python loop `for string in SWDocType` tests the members in declaration
order against `filepath.extension.replace('.','')` and returns the first
match; falling off the loop returns None.  Note the comparison is against
the extension exactly as written, with no case folding. -/
def format_doctype (filepath : Filepath) : Option SWDocType :=
  let extension := stripDots filepath.extension
  if SWDocType.PART.value = extension then some SWDocType.PART
  else if SWDocType.ASSEMBLY.value = extension then some SWDocType.ASSEMBLY
  else if SWDocType.DRAWING.value = extension then some SWDocType.DRAWING
  else none

/-- solidwrap.py, SolidWorks.open ( lines 104-112 ): the integer type key
passed to OpenDoc6, produced by matching `str.upper(filepath.extension.replace
('.', ''))` against the SWDocType values; an extension matching no member
leaves the key at its initial value 0. -/
def open_type_key (filepath : Filepath) : Nat :=
  let ext := upperStr (stripDots filepath.extension)
  if ext = SWDocType.PART.value then 1
  else if ext = SWDocType.ASSEMBLY.value then 2
  else if ext = SWDocType.DRAWING.value then 3
  else 0

/-- The OpenDoc6 integer key each document type receives in open's match
arms ( solidwrap.py lines 106-112 ). -/
def SWDocType.typeKey : SWDocType → Nat
| .PART => 1
| .ASSEMBLY => 2
| .DRAWING => 3

/-- A call issued by SolidWorks.open to the external client.  The method
always reaches the OpenDoc6 call, whatever type key was computed. -/
structure OpenCall where
  source : String
  typeKey : Nat
deriving DecidableEq, Repr

/-- solidwrap.py, SolidWorks.open: computes the type key from the extension
and unconditionally issues OpenDoc6 with it, then wraps the result in an
SWDocument ( whose constructor derives the doctype via format_doctype ). -/
def SolidWorks.openCall (filepath : Filepath) : OpenCall :=
  { source := filepath.complete, typeKey := open_type_key filepath }

/-- containers.py, SWDocument: wrapper holding the source Filepath and the
doctype derived by format_doctype ( which can be None ).  The opaque COM
object and the file size are irrelevant to the claims and omitted. -/
structure SWDocument where
  source : Filepath
  doctype : Option SWDocType
deriving DecidableEq, Repr

/-- containers.py, SWDocument.__init__: the doctype field is always the
result of format_doctype on the source path. -/
def SWDocument.mk' (source : Filepath) : SWDocument :=
  { source := source, doctype := format_doctype source }

/-- utilities.py: the fixed automation comment. -/
def AUTOMATION_MESSAGE : String := "automated action using SolidWrap"

/-- utilities.py: the fixed default export folder name. -/
def EXPORT_FOLDER_DEFAULT : String := "SolidWrap Exports"

/-- solidwrap.py ( lines 526-543 ), export_matrix: the dict literal mapping
each document type to the list of export formats compatible with it, in the
order written in the source. -/
def export_matrix : List (SWDocType × List SWExportFormat) :=
  [ (SWDocType.PART,
      [SWExportFormat.IMAGE, SWExportFormat.PARASOLID,
       SWExportFormat.STEP, SWExportFormat.STL]),
    (SWDocType.ASSEMBLY,
      [SWExportFormat.IMAGE, SWExportFormat.PARASOLID,
       SWExportFormat.STEP, SWExportFormat.STL]),
    (SWDocType.DRAWING,
      [SWExportFormat.DXF, SWExportFormat.PDF]) ]

/-- Python runtime errors the embedded functions can raise. -/
inductive PyError
| keyError
| attributeError
deriving DecidableEq, Repr

/-- Python dict subscription `export_matrix[document.doctype]`: a missing key
( in particular the None doctype of a document whose extension matched no
SWDocType member ) raises KeyError. -/
def export_matrix_get (key : Option SWDocType) : Except PyError (List SWExportFormat) :=
  match key with
  | none => Except.error PyError.keyError
  | some t =>
    match export_matrix.find? (fun p => p.1 = t) with
    | some p => Except.ok p.2
    | none => Except.error PyError.keyError

/-- Result of prepare_export when it reaches the end of the function:
the formatted output Filepath string and whether os.makedirs was invoked
( the destination folder did not yet exist ). -/
structure PrepareResult where
  output : String
  madeDirs : Bool
deriving DecidableEq, Repr

/-- solidwrap.py ( lines 507-511 ): when no destination override is given,
prepare_export uses `os.path.join(os.environ['USERPROFILE'], 'Desktop')`
joined with the fixed default export folder name. -/
def resolve_destination (destination : Option String) (userprofile : String) :
    String :=
  match destination with
  | some d => d
  | none => (userprofile ++ "\\" ++ "Desktop") ++ "\\" ++ EXPORT_FOLDER_DEFAULT

/-- solidwrap.py ( lines 495-521 ), prepare_export, translated statement by
statement.  `userprofile` models `os.environ['USERPROFILE']` and
`pathExists` models `Path(...).exists()`.  The incompatible-format branch
logs warnings and returns None ( `Except.ok none` here ); a document whose
doctype is None raises KeyError out of the dict subscription. -/
def prepare_export (document : SWDocument) (target_format : SWExportFormat)
    (destination : Option String) (userprofile : String)
    (pathExists : String → Bool) : Except PyError (Option PrepareResult) :=
  match export_matrix_get document.doctype with
  | Except.error e => Except.error e
  | Except.ok supported_formats =>
    if target_format ∉ supported_formats then
      Except.ok none
    else
      let dest : String := resolve_destination destination userprofile
      let made := !pathExists dest
      let root := document.source.root
      let extension := target_format.value
      Except.ok (some { output := dest ++ "\\" ++ root ++ "." ++ extension,
                        madeDirs := made })

/-- One step of scanning a path string for its file-name component: a
backslash restarts the component, any other character extends it. -/
def basenameStep (acc : List Char) (c : Char) : List Char :=
  if c = '\\' then [] else acc ++ [c]

/-- The file-name component of a path string — the characters after its
last backslash ( how the external Filepath collaborator derives the `name`
field from a complete path string ). -/
def basename (s : String) : String :=
  String.mk (s.data.foldl basenameStep [])

/-- One observable effect of SolidWorks.export on the external client. -/
inductive ExportEffect
| staged
| saveAs (path : String)
deriving DecidableEq, Repr

/-- Outcome of a call to SolidWorks.export: the effects issued to the
external client in order, and the error the call raised, if any. -/
structure ExportRun where
  trace : List ExportEffect
  error : Option PyError
deriving DecidableEq, Repr

/-- solidwrap.py ( lines 166-187 ), SolidWorks.export: calls prepare_export,
then stage, then reads `output.name` for the log line — when prepare_export
returned None ( incompatible format ) that attribute access raises
AttributeError, so SaveAs2 is never reached — and finally issues SaveAs2
with the computed path. -/
def SolidWorks.export (document : SWDocument) (as_type : SWExportFormat)
    (destination : Option String) (userprofile : String)
    (pathExists : String → Bool) : ExportRun :=
  match prepare_export document as_type destination userprofile pathExists with
  | Except.error e => { trace := [], error := some e }
  | Except.ok none =>
      { trace := [ExportEffect.staged], error := some PyError.attributeError }
  | Except.ok (some r) =>
      { trace := [ExportEffect.staged, ExportEffect.saveAs r.output],
        error := none }

/-- The vault-side view of one file: the IsLocked flag read by the wrapper.
IsLocked is true whenever anyone holds the lock, whoever that is. -/
structure VaultFile where
  isLocked : Bool
deriving DecidableEq, Repr

/-- A call issued by the Vault wrapper to the external PDM client. -/
inductive PdmCall
| lockFile (folderId : Nat)
| unlockFile (message : String)
| undoLockFile
deriving DecidableEq, Repr

/-- Outcome of one Vault lock-state method: whether the already-in-state
notice was logged ( the method returned early as a no-op ) and the PDM call
issued, if any. -/
structure LockCallResult where
  notice : Bool
  call : Option PdmCall
deriving DecidableEq, Repr

/-- solidwrap.py ( lines 350-369 ), Vault.checkout: reads file.IsLocked; if
the file is already locked it logs the already-checked-out notice and
returns None issuing no call, otherwise it issues LockFile with the
directory ID. -/
def Vault.checkout (file : VaultFile) (folderId : Nat) : LockCallResult :=
  if file.isLocked then { notice := true, call := none }
  else { notice := false, call := some (PdmCall.lockFile folderId) }

/-- solidwrap.py ( lines 324-348 ), Vault.checkin: formats the automation
message ( suffixing the caller's comment when given ), reads file.IsLocked;
if the file is already unlocked it logs the already-checked-in notice and
returns None issuing no call, otherwise it issues UnlockFile with the
message. -/
def Vault.checkin (file : VaultFile) (comment : Option String) : LockCallResult :=
  let message :=
    match comment with
    | some c => AUTOMATION_MESSAGE ++ ": " ++ c
    | none => AUTOMATION_MESSAGE
  if !file.isLocked then { notice := true, call := none }
  else { notice := false, call := some (PdmCall.unlockFile message) }

/-- solidwrap.py ( lines 371-390 ), Vault.undo_checkout: no-op with a notice
when the file is not locked, otherwise issues UndoLockFile. -/
def Vault.undo_checkout (file : VaultFile) : LockCallResult :=
  if !file.isLocked then { notice := true, call := none }
  else { notice := false, call := some PdmCall.undoLockFile }

/-- Modelled from the spec: the external vault applies a granted LockFile
call by locking the file and a granted UnlockFile or UndoLockFile call by
unlocking it; with no call the file is unchanged.  ( The vault itself is
outside this repository; the spec says checkout transitions LockState to
Locked on success and checkin symmetrically. ) -/
def applyPdmCall (file : VaultFile) (call : Option PdmCall) : VaultFile :=
  match call with
  | none => file
  | some (PdmCall.lockFile _) => { isLocked := true }
  | some (PdmCall.unlockFile _) => { isLocked := false }
  | some PdmCall.undoLockFile => { isLocked := false }

/-- The vault file state after a checkout call has been processed. -/
def Vault.checkoutStep (file : VaultFile) (folderId : Nat) : VaultFile :=
  applyPdmCall file (Vault.checkout file folderId).call

/-- The vault file state after a checkin call has been processed. -/
def Vault.checkinStep (file : VaultFile) (comment : Option String) : VaultFile :=
  applyPdmCall file (Vault.checkin file comment).call

/-- One outbound workflow transition reported by the vault for a state:
its name and the name of its target state ( IEdmTransition ). -/
structure Transition where
  name : String
  toState : String
deriving DecidableEq, Repr

/-- The vault-side workflow view of one file: the name of its current state
and the outbound transitions of that state, in the order the position-based
GetFirstTransitionPosition / GetNextTransition iteration reports them. -/
structure WorkflowFile where
  currentState : String
  transitions : List Transition
deriving DecidableEq, Repr

/-- solidwrap.py ( lines 450-466 ), Vault.get_transitions: iterates the
transition positions of the file's current state and collects the names. -/
def Vault.get_transitions (file : WorkflowFile) : List String :=
  file.transitions.map (fun t => t.name)

/-- The ChangeState call issued by Vault.change_state to the external PDM
client: the resolved target state, the directory ID and the comment. -/
structure ChangeStateCall where
  toState : String
  folderId : Nat
  comment : String
deriving DecidableEq, Repr

/-- The body of the `for test in transitions` loop of change_state: when the
tested transition's Name equals the request, next_state is ( re )assigned
from it, otherwise the accumulator is kept. -/
def matchStep (name : String) (acc : Option Transition) (t : Transition) :
    Option Transition :=
  if t.name = name then some t else acc

/-- solidwrap.py ( lines 410-419 ): the `for test in transitions` loop that
assigns next_state for every transition whose Name equals the request; when
several match, the last assignment wins.  Embedded as a left fold over the
enumerated list. -/
def last_matching_transition (transitions : List Transition) (name : String) :
    Option Transition :=
  transitions.foldl (matchStep name) none

/-- solidwrap.py ( lines 393-430 ), Vault.change_state: enumerates the
outbound transitions of the file's current state, scans them for ones whose
Name equals the requested transition; when none matched it logs a warning
and returns issuing no call, otherwise it issues ChangeState with the
matched transition's ToState and the default-or-custom comment. -/
def Vault.change_state (file : WorkflowFile) (transition : String)
    (comment : Option String) (folderId : Nat) : Option ChangeStateCall :=
  match last_matching_transition file.transitions transition with
  | none => none
  | some t =>
      some { toState := t.toState, folderId := folderId,
             comment := comment.getD AUTOMATION_MESSAGE }

/-- solidwrap.py ( lines 476-492 ), Vault.get_configurations: collects the
configuration names the vault reports, in order, then executes
`if '@' in results: results.remove('@')` — Python list.remove deletes only
the first occurrence. -/
def Vault.get_configurations (configs : List String) : List String :=
  if "@" ∈ configs then configs.erase "@" else configs

/-- One document-level action performed by the SolidWorks wrapper. -/
inductive DocAction
| rebuild (topOnly : Bool)
| save
| close
deriving DecidableEq, Repr

/-- Which of the three external calls raise, modelling failures inside the
external COM process. -/
structure DocEnv where
  rebuildFails : Bool
  saveFails : Bool
  closeFails : Bool
deriving DecidableEq, Repr

/-- Whether a given action raises under the environment. -/
def DocEnv.fails (env : DocEnv) : DocAction → Bool
| DocAction.rebuild _ => env.rebuildFails
| DocAction.save => env.saveFails
| DocAction.close => env.closeFails

/-- Python sequencing of statements under exception propagation: run the
actions in order; an action that raises ends the method there, with the
exception surfaced to the caller.  Returns the actions attempted, in order,
and the action whose exception surfaced, if any. -/
def runSeq (env : DocEnv) : List DocAction → List DocAction × Option DocAction
| [] => ([], none)
| a :: rest =>
  if env.fails a then ([a], some a)
  else
    let r := runSeq env rest
    (a :: r.1, r.2)

/-- solidwrap.py ( lines 137-141 ), SolidWorks.safeclose: the method body is
exactly `self.rebuild(document, False); self.save(document);
self.close(document)`, executed with Python exception propagation. -/
def SolidWorks.safeclose (env : DocEnv) : List DocAction × Option DocAction :=
  runSeq env [DocAction.rebuild false, DocAction.save, DocAction.close]

/-- The feature tree of a document as the external client reports it: the
chain of features starting at GetFirstChild, each node's GetNext pointing at
the following node ( the chain here is a well-formed finite list; the Python
code is examined on it ).  Nodes are identified by their names. -/
structure FeatureTree where
  chain : List String
  count : Nat
deriving DecidableEq, Repr

/-- Modelled from the spec: the intended last-feature lookup — walk the
feature chain from its head following next-pointers, at most `count` steps,
and return the node at the tail ( this is what spec section 4.1 prescribes
for freeze; the repository's own get_last_feature is embedded below ). -/
def last_feature_intended (tree : FeatureTree) : Option String :=
  match tree.chain with
  | [] => none
  | x :: rest => some ((rest.take tree.count).getLastD x)

/-- A Python value the variable `feature` can hold inside get_last_feature:
a COM feature node ( identified by its position in the chain ), the Python
None returned by GetFirstChild on an empty tree, or an integer — the values
`for feature in range(count)` rebinds the variable to. -/
inductive PyFeatVal
| node (idx : Nat)
| pyNone
| intVal (n : Nat)
deriving DecidableEq, Repr

/-- Attribute access `feature.GetNext`: on a feature node it yields the next
node in the chain or the falsy None at the tail; on None or an int it raises
AttributeError. -/
def featGetNext (tree : FeatureTree) : PyFeatVal → Except PyError (Option Nat)
| PyFeatVal.node idx =>
    Except.ok (if idx + 1 < tree.chain.length then some (idx + 1) else none)
| PyFeatVal.pyNone => Except.error PyError.attributeError
| PyFeatVal.intVal _ => Except.error PyError.attributeError

/-- The body of `for feature in range(count)` in get_last_feature: at the
top of each iteration the loop REBINDS `feature` to the next integer
( discarding whatever the variable held ), then runs
`if feature.GetNext: feature = feature.GetNext`. -/
def lastFeatureLoop (tree : FeatureTree) :
    List Nat → PyFeatVal → Except PyError PyFeatVal
| [], feature => Except.ok feature
| i :: rest, _ =>
    let feature := PyFeatVal.intVal i
    match featGetNext tree feature with
    | Except.error e => Except.error e
    | Except.ok (some nxt) => lastFeatureLoop tree rest (PyFeatVal.node nxt)
    | Except.ok none => lastFeatureLoop tree rest feature

/-- solidwrap.py ( lines 234-248 ), SolidWorks.get_last_feature:
`feature = tree.GetFirstChild` binds the head node ( None on an empty
tree ), the loop `for feature in range(count)` runs with Python scoping —
the loop variable is the same `feature` — and finally `feature.Object` is
read off whatever the variable holds ( AttributeError on None or an int ). -/
def SolidWorks.get_last_feature (tree : FeatureTree) : Except PyError String :=
  let first : PyFeatVal :=
    match tree.chain with
    | [] => PyFeatVal.pyNone
    | _ :: _ => PyFeatVal.node 0
  match lastFeatureLoop tree (List.range tree.count) first with
  | Except.error e => Except.error e
  | Except.ok (PyFeatVal.node idx) =>
      match tree.chain.get? idx with
      | some name => Except.ok name
      | none => Except.error PyError.attributeError
  | Except.ok PyFeatVal.pyNone => Except.error PyError.attributeError
  | Except.ok (PyFeatVal.intVal _) => Except.error PyError.attributeError

/-- utilities.py ( lines 42-53 ), singleton: the wrapper keeps the first
instance in `wrapper.instance` ( initially None ); a call constructs and
stores a new instance only when none is stored ( class instances are truthy,
so `if not wrapper.instance` is exactly the None test ), and always returns
the stored instance. -/
def singleton_call {α : Type} (stored : Option α) (construct : Unit → α) :
    α × Option α :=
  match stored with
  | some inst => (inst, some inst)
  | none =>
      let inst := construct ()
      (inst, some inst)

/-- solidwrap.py ( lines 251-265 ), Vault.__init__: stores the vault name
and starts unauthorized. -/
structure VaultInstance where
  name : String
  authorized : SWAuthState
deriving DecidableEq, Repr

/-- Vault.__init__ as the constructor the singleton wrapper invokes. -/
def Vault.init (name : String) : VaultInstance :=
  { name := name, authorized := SWAuthState.UNAUTHORIZED }

/-- solidwrap.py ( lines 41-54 ), SolidWorks.__init__: stores the release
version ( default 2023 ). -/
structure SolidWorksInstance where
  version : Int
deriving DecidableEq, Repr

/-- SolidWorks.__init__ as the constructor the singleton wrapper invokes. -/
def SolidWorks.init (version : Int) : SolidWorksInstance :=
  { version := version }

/-! Theorems settling the claims. -/

/-- C1: checkout on a locked file and checkin on an unlocked file are
idempotent no-ops reported with the already-in-state notice; the underlying
LockFile / UnlockFile vault call is made exactly when the file is in the
opposite lock state, and the call immediately following a checkout ( resp.
checkin ) issues no duplicate lock ( resp. unlock ) request and leaves the
state unchanged. -/
theorem C1_lock_idempotence (file : VaultFile) (folderId : Nat)
    (comment : Option String) :
    ((Vault.checkout file folderId).call.isSome ↔ file.isLocked = false)
    ∧ ((Vault.checkin file comment).call.isSome ↔ file.isLocked = true)
    ∧ ((Vault.checkout file folderId).notice = true ↔ file.isLocked = true)
    ∧ ((Vault.checkin file comment).notice = true ↔ file.isLocked = false)
    ∧ (Vault.checkout (Vault.checkoutStep file folderId) folderId).call = none
    ∧ (Vault.checkin (Vault.checkinStep file comment) comment).call = none
    ∧ Vault.checkoutStep (Vault.checkoutStep file folderId) folderId =
        Vault.checkoutStep file folderId
    ∧ Vault.checkinStep (Vault.checkinStep file comment) comment =
        Vault.checkinStep file comment := by
  obtain ⟨locked⟩ := file
  cases locked <;>
    simp [Vault.checkout, Vault.checkin, Vault.checkoutStep, Vault.checkinStep,
      applyPdmCall]

/-- C1 witness: the theorem instantiated on a concrete unlocked file. -/
theorem C1_lock_idempotence_witness :
    ((Vault.checkout { isLocked := false } 4).call.isSome ↔
        ({ isLocked := false } : VaultFile).isLocked = false)
    ∧ (Vault.checkout (Vault.checkoutStep { isLocked := false } 4) 4).call = none :=
  ⟨(C1_lock_idempotence { isLocked := false } 4 none).1,
   (C1_lock_idempotence { isLocked := false } 4 none).2.2.2.2.1⟩

/-- Once the scan over transitions holds a candidate, it keeps holding
one. -/
lemma foldl_matchStep_isSome (name : String) (l : List Transition)
    (acc : Option Transition) (h : acc.isSome = true) :
    (l.foldl (matchStep name) acc).isSome = true := by
  induction l generalizing acc with
  | nil => exact h
  | cons x xs ih =>
      rw [List.foldl_cons]
      by_cases hx : x.name = name
      · exact ih _ (by simp [matchStep, hx])
      · exact ih _ (by simpa [matchStep, hx] using h)

/-- A transition of the scanned list whose name matches makes the scan end
with a candidate. -/
lemma foldl_matchStep_of_mem (name : String) (l : List Transition)
    (t : Transition) (ht : t ∈ l) (hn : t.name = name) (acc : Option Transition) :
    (l.foldl (matchStep name) acc).isSome = true := by
  induction l generalizing acc with
  | nil => cases ht
  | cons x xs ih =>
      rw [List.foldl_cons]
      rcases List.mem_cons.mp ht with h | h
      · subst h
        exact foldl_matchStep_isSome name xs _ (by simp [matchStep, hn])
      · exact ih h _

/-- Whatever the scan over transitions ends with either was the incoming
accumulator or is a member of the list whose name matches. -/
lemma foldl_matchStep_some (name : String) (l : List Transition)
    (acc : Option Transition) (u : Transition)
    (h : l.foldl (matchStep name) acc = some u) :
    acc = some u ∨ (u ∈ l ∧ u.name = name) := by
  induction l generalizing acc with
  | nil => exact Or.inl h
  | cons x xs ih =>
      rw [List.foldl_cons] at h
      rcases ih _ h with h2 | h2
      · by_cases hx : x.name = name
        · rw [matchStep, if_pos hx] at h2
          injection h2 with h3
          subst h3
          exact Or.inr ⟨List.mem_cons_self x xs, hx⟩
        · rw [matchStep, if_neg hx] at h2
          exact Or.inl h2
      · exact Or.inr ⟨List.mem_cons_of_mem x h2.1, h2.2⟩

/-- With no matching name in the list, the scan returns its accumulator. -/
lemma foldl_matchStep_no_match (name : String) (l : List Transition)
    (acc : Option Transition) (h : ∀ t ∈ l, t.name ≠ name) :
    l.foldl (matchStep name) acc = acc := by
  induction l generalizing acc with
  | nil => rfl
  | cons x xs ih =>
      rw [List.foldl_cons, matchStep, if_neg (h x (List.mem_cons_self x xs))]
      exact ih _ (fun t ht => h t (List.mem_cons_of_mem x ht))

/-- The scan for the last matching transition fails exactly when no
enumerated transition bears the requested name. -/
lemma last_matching_eq_none_iff (l : List Transition) (name : String) :
    last_matching_transition l name = none ↔ ∀ t ∈ l, t.name ≠ name := by
  constructor
  · intro h t ht hn
    have hs := foldl_matchStep_of_mem name l t ht hn none
    rw [last_matching_transition] at h
    rw [h] at hs
    simp at hs
  · intro h
    exact foldl_matchStep_no_match name l none h

/-- C2: change_state enumerates the outbound transitions of the file's
current state and matches the requested name exactly: it submits no state
change exactly when no enumerated transition bears the requested name
( there is no fall-through to a default state ); any submitted change comes
from a matching enumerated transition; and when exactly one transition
matches, the submitted change carries that transition's resolved target
state, the folder ID and the default-or-custom comment. -/
theorem C2_change_state_exact_match (file : WorkflowFile) (name : String)
    (comment : Option String) (folderId : Nat) :
    (Vault.change_state file name comment folderId = none ↔
      name ∉ Vault.get_transitions file)
    ∧ (∀ call, Vault.change_state file name comment folderId = some call →
        ∃ t, t ∈ file.transitions ∧ t.name = name ∧ call.toState = t.toState ∧
          call.folderId = folderId ∧ call.comment = comment.getD AUTOMATION_MESSAGE)
    ∧ (∀ t, t ∈ file.transitions → t.name = name →
        (∀ t', t' ∈ file.transitions → t'.name = name → t' = t) →
        Vault.change_state file name comment folderId =
          some { toState := t.toState, folderId := folderId,
                 comment := comment.getD AUTOMATION_MESSAGE }) := by
  have hnone : Vault.change_state file name comment folderId = none ↔
      last_matching_transition file.transitions name = none := by
    cases h : last_matching_transition file.transitions name <;>
      simp [Vault.change_state, h]
  refine ⟨?_, ?_, ?_⟩
  · rw [hnone, last_matching_eq_none_iff]
    simp [Vault.get_transitions, List.mem_map]
  · intro call hc
    cases h : last_matching_transition file.transitions name with
    | none => simp [Vault.change_state, h] at hc
    | some u =>
        simp only [Vault.change_state, h] at hc
        rcases foldl_matchStep_some name file.transitions none u h with h2 | h2
        · cases h2
        · injection hc with hc2
          subst hc2
          exact ⟨u, h2.1, h2.2, rfl, rfl, rfl⟩
  · intro t ht hn huniq
    have hs := foldl_matchStep_of_mem name file.transitions t ht hn none
    cases h : last_matching_transition file.transitions name with
    | none =>
        rw [last_matching_transition] at h
        rw [h] at hs
        simp at hs
    | some u =>
        rcases foldl_matchStep_some name file.transitions none u h with h2 | h2
        · cases h2
        · have : u = t := huniq u h2.1 h2.2
          subst this
          simp [Vault.change_state, h]

/-- C2 witness: on a file whose current state has the single outbound
transition Release, requesting Release submits its target state and
requesting Submit submits nothing. -/
theorem C2_change_state_exact_match_witness :
    Vault.change_state
        { currentState := "WIP",
          transitions := [{ name := "Release", toState := "Released" }] }
        "Release" none 7 =
      some { toState := "Released", folderId := 7, comment := AUTOMATION_MESSAGE }
    ∧ Vault.change_state
        { currentState := "WIP",
          transitions := [{ name := "Release", toState := "Released" }] }
        "Submit" none 7 = none :=
  ⟨(C2_change_state_exact_match
      { currentState := "WIP",
        transitions := [{ name := "Release", toState := "Released" }] }
      "Release" none 7).2.2
      { name := "Release", toState := "Released" }
      (by simp) rfl (by intro t' ht' hn'; simpa using ht'),
   ((C2_change_state_exact_match
      { currentState := "WIP",
        transitions := [{ name := "Release", toState := "Released" }] }
      "Submit" none 7).1).mpr (by simp [Vault.get_transitions])⟩

/-- C4: the export compatibility table is total over SWDocType — Drawing
maps to exactly the formats DXF and PDF, Part and Assembly each map to
exactly the formats Image, Parasolid, Step and STL — and every document
type's entry is non-empty. -/
theorem C4_export_matrix_exact :
    export_matrix_get (some SWDocType.DRAWING) =
      Except.ok [SWExportFormat.DXF, SWExportFormat.PDF]
    ∧ export_matrix_get (some SWDocType.PART) =
      Except.ok [SWExportFormat.IMAGE, SWExportFormat.PARASOLID,
                 SWExportFormat.STEP, SWExportFormat.STL]
    ∧ export_matrix_get (some SWDocType.ASSEMBLY) =
      Except.ok [SWExportFormat.IMAGE, SWExportFormat.PARASOLID,
                 SWExportFormat.STEP, SWExportFormat.STL]
    ∧ (∀ t : SWDocType, ∃ fs, export_matrix_get (some t) = Except.ok fs ∧ fs ≠ [])
    ∧ (∀ f : SWExportFormat,
        (∀ fs, export_matrix_get (some SWDocType.DRAWING) = Except.ok fs →
          (f ∈ fs ↔ (f = SWExportFormat.DXF ∨ f = SWExportFormat.PDF)))
        ∧ (∀ fs, export_matrix_get (some SWDocType.PART) = Except.ok fs →
          (f ∈ fs ↔ (f = SWExportFormat.IMAGE ∨ f = SWExportFormat.PARASOLID ∨
                     f = SWExportFormat.STEP ∨ f = SWExportFormat.STL)))
        ∧ (∀ fs, export_matrix_get (some SWDocType.ASSEMBLY) = Except.ok fs →
          (f ∈ fs ↔ (f = SWExportFormat.IMAGE ∨ f = SWExportFormat.PARASOLID ∨
                     f = SWExportFormat.STEP ∨ f = SWExportFormat.STL)))) := by
  refine ⟨rfl, rfl, rfl, fun t => ?_, fun f => ?_⟩
  · cases t <;> exact ⟨_, rfl, by simp⟩
  · refine ⟨fun fs h => ?_, fun fs h => ?_, fun fs h => ?_⟩ <;>
      (simp only [export_matrix_get, export_matrix, List.find?] at h) <;>
      (injection h with h2) <;> subst h2 <;> (cases f <;> simp)

/-- C3: export issues the external SaveAs2 call exactly when the pair of the
document's type and the requested format appears in the export
compatibility table; for a pair outside the table the run raises and no
SaveAs2 call is issued ( the incompatible branch of prepare_export returns
None, whose attribute access in export fails before the save call ). -/
theorem C3_export_compatibility (document : SWDocument) (dt : SWDocType)
    (as_type : SWExportFormat) (destination : Option String)
    (userprofile : String) (pathExists : String → Bool)
    (hdt : document.doctype = some dt) :
    ((∃ p, ExportEffect.saveAs p ∈
        (SolidWorks.export document as_type destination userprofile pathExists).trace) ↔
      (∃ q ∈ export_matrix, q.1 = dt ∧ as_type ∈ q.2))
    ∧ (¬ (∃ q ∈ export_matrix, q.1 = dt ∧ as_type ∈ q.2) →
        (SolidWorks.export document as_type destination userprofile
            pathExists).error.isSome = true
        ∧ ∀ p, ExportEffect.saveAs p ∉
            (SolidWorks.export document as_type destination userprofile
              pathExists).trace)
    ∧ ((∃ q ∈ export_matrix, q.1 = dt ∧ as_type ∈ q.2) →
        (SolidWorks.export document as_type destination userprofile
            pathExists).error = none) := by
  cases dt <;> cases as_type <;>
    simp [SolidWorks.export, prepare_export, export_matrix_get, export_matrix,
      hdt, List.find?]

/-- C3 witness: a Part exported as STEP issues the save call; a Drawing
exported as STL raises instead of issuing it. -/
theorem C3_export_compatibility_witness :
    (∃ p, ExportEffect.saveAs p ∈
        (SolidWorks.export
          { source := { complete := "C:\\v\\a.SLDPRT", directory := "C:\\v",
                        name := "a.SLDPRT", root := "a", extension := ".SLDPRT" },
            doctype := some SWDocType.PART }
          SWExportFormat.STEP none "C:\\Users\\u" (fun _ => true)).trace)
    ∧ (SolidWorks.export
          { source := { complete := "C:\\v\\b.SLDDRW", directory := "C:\\v",
                        name := "b.SLDDRW", root := "b", extension := ".SLDDRW" },
            doctype := some SWDocType.DRAWING }
          SWExportFormat.STL none "C:\\Users\\u" (fun _ => true)).error.isSome = true :=
  ⟨(C3_export_compatibility
      { source := { complete := "C:\\v\\a.SLDPRT", directory := "C:\\v",
                    name := "a.SLDPRT", root := "a", extension := ".SLDPRT" },
        doctype := some SWDocType.PART }
      SWDocType.PART SWExportFormat.STEP none "C:\\Users\\u" (fun _ => true)
      rfl).1.mpr (by decide),
   ((C3_export_compatibility
      { source := { complete := "C:\\v\\b.SLDDRW", directory := "C:\\v",
                    name := "b.SLDDRW", root := "b", extension := ".SLDDRW" },
        doctype := some SWDocType.DRAWING }
      SWDocType.DRAWING SWExportFormat.STL none "C:\\Users\\u" (fun _ => true)
      rfl).2.1 (by decide)).1⟩

/-- The document constructor's classifier succeeds exactly on an extension
equal, character for character, to an enumeration value once periods are
removed. -/
lemma format_doctype_eq_some_iff (fp : Filepath) (t : SWDocType) :
    format_doctype fp = some t ↔ stripDots fp.extension = t.value := by
  unfold format_doctype
  by_cases h1 : SWDocType.PART.value = stripDots fp.extension
  · rw [if_pos h1]
    cases t <;> simp [SWDocType.value, ← h1]
  · rw [if_neg h1]
    by_cases h2 : SWDocType.ASSEMBLY.value = stripDots fp.extension
    · rw [if_pos h2]
      cases t <;> simp [SWDocType.value, ← h2]
    · rw [if_neg h2]
      by_cases h3 : SWDocType.DRAWING.value = stripDots fp.extension
      · rw [if_pos h3]
        cases t <;> simp [SWDocType.value, ← h3]
      · rw [if_neg h3]
        cases t with
        | PART => simpa [SWDocType.value] using fun h => h1 h.symm
        | ASSEMBLY => simpa [SWDocType.value] using fun h => h2 h.symm
        | DRAWING => simpa [SWDocType.value] using fun h => h3 h.symm

/-- open's type key is the key of the document type whose value the
upper-cased extension equals. -/
lemma open_type_key_of_match (fp : Filepath) (t : SWDocType)
    (h : upperStr (stripDots fp.extension) = t.value) :
    open_type_key fp = t.typeKey := by
  unfold open_type_key
  cases t <;> simp only [SWDocType.value, SWDocType.typeKey] at h ⊢ <;>
    simp [h]

/-- open's type key stays 0 when the upper-cased extension equals no
enumeration value. -/
lemma open_type_key_of_no_match (fp : Filepath)
    (h : ∀ t : SWDocType, upperStr (stripDots fp.extension) ≠ t.value) :
    open_type_key fp = 0 := by
  have h1 := h SWDocType.PART
  have h2 := h SWDocType.ASSEMBLY
  have h3 := h SWDocType.DRAWING
  simp only [SWDocType.value] at h1 h2 h3
  simp [open_type_key, SWDocType.value, h1, h2, h3]

/-- C5 counterexample: the location with the lower-case extension .sldprt
matches the Part enumeration value under the case-insensitive comparison,
yet the document constructor's classifier ( format_doctype, which compares
without case folding ) returns no document type; and for the unmatched
extension .txt, open does not fail — it proceeds and issues OpenDoc6 with
type key 0. -/
theorem C5_counterexample :
    upperStr (stripDots ".sldprt") = SWDocType.PART.value
    ∧ format_doctype
        { complete := "C:\\vault\\part.sldprt", directory := "C:\\vault",
          name := "part.sldprt", root := "part", extension := ".sldprt" } = none
    ∧ SolidWorks.openCall
        { complete := "C:\\vault\\notes.txt", directory := "C:\\vault",
          name := "notes.txt", root := "notes", extension := ".txt" } =
      { source := "C:\\vault\\notes.txt", typeKey := 0 } := by
  decide

/-- C5 amended: open's type-key classification is case-insensitive — an
extension whose upper-cased form equals an enumeration value receives that
type's key, and any other extension receives key 0 while OpenDoc6 is still
issued ( no UnsupportedTypeError ); the document constructor's classifier
( format_doctype ) instead compares the extension without case folding,
returning the matching type exactly on a verbatim match and None
otherwise. -/
theorem C5_classification_amended (fp : Filepath) :
    (∀ t : SWDocType, format_doctype fp = some t ↔ stripDots fp.extension = t.value)
    ∧ (∀ t : SWDocType, upperStr (stripDots fp.extension) = t.value →
        open_type_key fp = t.typeKey)
    ∧ ((∀ t : SWDocType, upperStr (stripDots fp.extension) ≠ t.value) →
        open_type_key fp = 0)
    ∧ (SolidWorks.openCall fp).typeKey = open_type_key fp
    ∧ (SolidWorks.openCall fp).source = fp.complete :=
  ⟨fun t => format_doctype_eq_some_iff fp t,
   fun t h => open_type_key_of_match fp t h,
   fun h => open_type_key_of_no_match fp h,
   rfl, rfl⟩

/-- C5 witness: the amended theorem instantiated on an upper-case part
location ( classifier succeeds ) and on the lower-case one ( open still
computes key 1 ). -/
theorem C5_classification_amended_witness :
    format_doctype
        { complete := "C:\\vault\\part.SLDPRT", directory := "C:\\vault",
          name := "part.SLDPRT", root := "part", extension := ".SLDPRT" } =
      some SWDocType.PART
    ∧ open_type_key
        { complete := "C:\\vault\\part.sldprt", directory := "C:\\vault",
          name := "part.sldprt", root := "part", extension := ".sldprt" } = 1 :=
  ⟨((C5_classification_amended
      { complete := "C:\\vault\\part.SLDPRT", directory := "C:\\vault",
        name := "part.SLDPRT", root := "part", extension := ".SLDPRT" }).1
      SWDocType.PART).mpr (by decide),
   (C5_classification_amended
      { complete := "C:\\vault\\part.sldprt", directory := "C:\\vault",
        name := "part.sldprt", root := "part", extension := ".sldprt" }).2.1
      SWDocType.PART (by decide)⟩

/-- Concatenation of strings concatenates their character lists. -/
lemma string_data_append (a b : String) : (a ++ b).data = a.data ++ b.data := rfl

/-- Concatenation of strings is associative. -/
lemma string_append_assoc (a b c : String) : a ++ b ++ c = a ++ (b ++ c) := by
  rcases a with ⟨la⟩
  rcases b with ⟨lb⟩
  rcases c with ⟨lc⟩
  show String.mk (la ++ lb ++ lc) = String.mk (la ++ (lb ++ lc))
  rw [List.append_assoc]

/-- Scanning backslash-free characters only appends them to the current
component. -/
lemma foldl_basenameStep_no_bs (l : List Char) (acc : List Char)
    (h : ∀ c ∈ l, c ≠ '\\') : l.foldl basenameStep acc = acc ++ l := by
  induction l generalizing acc with
  | nil => simp
  | cons x xs ih =>
      rw [List.foldl_cons, basenameStep, if_neg (h x (List.mem_cons_self x xs))]
      rw [ih _ (fun c hc => h c (List.mem_cons_of_mem x hc))]
      simp

/-- The file-name component of a path string obtained by joining a
directory, a backslash and a backslash-free tail is exactly the tail. -/
lemma basename_append_bs (d tail : String) (h : ∀ c ∈ tail.data, c ≠ '\\') :
    basename (d ++ "\\" ++ tail) = tail := by
  unfold basename
  rw [string_data_append, string_data_append,
      List.foldl_append, List.foldl_append]
  rw [show ("\\" : String).data = ['\\'] from rfl]
  rw [show ∀ acc, List.foldl basenameStep acc ['\\'] = [] from
        fun acc => by simp [basenameStep]]
  rw [foldl_basenameStep_no_bs tail.data [] h]
  rcases tail with ⟨lt⟩
  rfl

/-- No export format extension contains a backslash. -/
lemma value_no_backslash (f : SWExportFormat) :
    ∀ c ∈ f.value.data, c ≠ '\\' := by
  cases f <;> decide

/-- For a permitted format, prepare_export reaches the end of the function
and returns the formatted output record. -/
lemma prepare_export_ok (document : SWDocument) (format : SWExportFormat)
    (destination : Option String) (userprofile : String)
    (pathExists : String → Bool) (fs : List SWExportFormat)
    (hget : export_matrix_get document.doctype = Except.ok fs)
    (hmem : format ∈ fs) :
    prepare_export document format destination userprofile pathExists =
      Except.ok (some
        { output := resolve_destination destination userprofile ++ "\\" ++
            document.source.root ++ "." ++ format.value,
          madeDirs := !pathExists (resolve_destination destination userprofile) }) := by
  unfold prepare_export
  rw [hget]
  simp [hmem]

/-- C6: for a document and a format permitted for its type, prepare_export
computes the output path destination, backslash, root, period, format
extension — so its file-name component is root.extension — where the
destination is the given override, or, when none is given, the fixed
SolidWrap Exports folder under the user's desktop, with the folder created
exactly when it does not yet exist. -/
theorem C6_export_output_path (document : SWDocument) (dt : SWDocType)
    (format : SWExportFormat) (destination : Option String)
    (userprofile : String) (pathExists : String → Bool)
    (hdt : document.doctype = some dt)
    (hcompat : ∃ q ∈ export_matrix, q.1 = dt ∧ format ∈ q.2)
    (hroot : ∀ c ∈ document.source.root.data, c ≠ '\\') :
    ∃ r, prepare_export document format destination userprofile pathExists =
        Except.ok (some r)
      ∧ r.output = resolve_destination destination userprofile ++ "\\" ++
          document.source.root ++ "." ++ format.value
      ∧ basename r.output = document.source.root ++ "." ++ format.value
      ∧ resolve_destination none userprofile =
          userprofile ++ "\\" ++ "Desktop" ++ "\\" ++ EXPORT_FOLDER_DEFAULT
      ∧ r.madeDirs = !pathExists (resolve_destination destination userprofile) := by
  have htail : ∀ c ∈ (document.source.root ++ "." ++ format.value).data,
      c ≠ '\\' := by
    intro c hc
    rw [string_data_append, string_data_append] at hc
    rcases List.mem_append.mp hc with hc2 | hc2
    · rcases List.mem_append.mp hc2 with hc3 | hc3
      · exact hroot c hc3
      · simp only [show ("." : String).data = ['.'] from rfl,
          List.mem_singleton] at hc3
        subst hc3
        decide
    · exact value_no_backslash format c hc2
  have hbase : basename (resolve_destination destination userprofile ++ "\\" ++
      document.source.root ++ "." ++ format.value) =
      document.source.root ++ "." ++ format.value := by
    rw [string_append_assoc (resolve_destination destination userprofile ++ "\\")
          document.source.root "."]
    rw [string_append_assoc (resolve_destination destination userprofile ++ "\\")
          (document.source.root ++ ".") format.value]
    exact basename_append_bs (resolve_destination destination userprofile)
      (document.source.root ++ "." ++ format.value) htail
  obtain ⟨q, hq, hq1, hq2⟩ := hcompat
  have hstep : ∀ fs : List SWExportFormat,
      export_matrix_get document.doctype = Except.ok fs → format ∈ fs →
      ∃ r, prepare_export document format destination userprofile pathExists =
          Except.ok (some r)
        ∧ r.output = resolve_destination destination userprofile ++ "\\" ++
            document.source.root ++ "." ++ format.value
        ∧ basename r.output = document.source.root ++ "." ++ format.value
        ∧ resolve_destination none userprofile =
            userprofile ++ "\\" ++ "Desktop" ++ "\\" ++ EXPORT_FOLDER_DEFAULT
        ∧ r.madeDirs = !pathExists (resolve_destination destination userprofile) :=
    fun fs hget hmem =>
      ⟨_, prepare_export_ok document format destination userprofile pathExists
            fs hget hmem, rfl, hbase, rfl, rfl⟩
  cases dt <;>
  · simp only [export_matrix, List.mem_cons, List.not_mem_nil, or_false] at hq
    rcases hq with rfl | rfl | rfl <;>
      first
      | exact absurd hq1 (by decide)
      | exact hstep _ (by rw [hdt]; rfl) hq2

/-- C6 witness: the document rooted Test_Part_02 exported as Step with no
destination override, under a user profile whose desktop lacks the export
folder: the computed file name is exactly Test_Part_02.step and the folder
is created. -/
theorem C6_export_output_path_witness :
    ∃ r, prepare_export
        { source := { complete := "C:\\vault\\Test_Part_02.SLDPRT",
                      directory := "C:\\vault", name := "Test_Part_02.SLDPRT",
                      root := "Test_Part_02", extension := ".SLDPRT" },
          doctype := some SWDocType.PART }
        SWExportFormat.STEP none "C:\\Users\\user" (fun _ => false) =
        Except.ok (some r)
      ∧ basename r.output = "Test_Part_02.step"
      ∧ r.madeDirs = true := by
  obtain ⟨r, h1, _, h3, _, h5⟩ := C6_export_output_path
    { source := { complete := "C:\\vault\\Test_Part_02.SLDPRT",
                  directory := "C:\\vault", name := "Test_Part_02.SLDPRT",
                  root := "Test_Part_02", extension := ".SLDPRT" },
      doctype := some SWDocType.PART }
    SWDocType.PART SWExportFormat.STEP none "C:\\Users\\user" (fun _ => false)
    rfl (by decide) (by decide)
  refine ⟨r, h1, ?_, ?_⟩
  · rw [h3]
    rfl
  · rw [h5]
    rfl

/-- C7: safeclose runs exactly rebuild ( topOnly false ), save, close, in
that order; when an intermediate step raises, the remaining steps are not
attempted and the failure is surfaced to the caller, which satisfies the
claim's alternative of surfacing the failure rather than leaving the
document handle leaked silently. -/
theorem C7_safeclose_sequence (env : DocEnv) :
    (env.rebuildFails = false → env.saveFails = false → env.closeFails = false →
      SolidWorks.safeclose env =
        ([DocAction.rebuild false, DocAction.save, DocAction.close], none))
    ∧ (env.rebuildFails = true →
      SolidWorks.safeclose env =
        ([DocAction.rebuild false], some (DocAction.rebuild false)))
    ∧ (env.rebuildFails = false → env.saveFails = true →
      SolidWorks.safeclose env =
        ([DocAction.rebuild false, DocAction.save], some DocAction.save))
    ∧ ((env.rebuildFails = true ∨ env.saveFails = true) →
      DocAction.close ∈ (SolidWorks.safeclose env).1 ∨
        (SolidWorks.safeclose env).2.isSome) := by
  obtain ⟨r, s, c⟩ := env
  cases r <;> cases s <;> cases c <;>
    simp [SolidWorks.safeclose, runSeq, DocEnv.fails]

/-- C7 witness: the theorem instantiated on the all-succeeding environment
and on the save-failing environment. -/
theorem C7_safeclose_sequence_witness :
    SolidWorks.safeclose { rebuildFails := false, saveFails := false, closeFails := false } =
      ([DocAction.rebuild false, DocAction.save, DocAction.close], none)
    ∧ (DocAction.close ∈
        (SolidWorks.safeclose { rebuildFails := false, saveFails := true, closeFails := false }).1 ∨
      (SolidWorks.safeclose { rebuildFails := false, saveFails := true, closeFails := false }).2.isSome) :=
  ⟨(C7_safeclose_sequence _).1 rfl rfl rfl,
   (C7_safeclose_sequence _).2.2.2 (Or.inr rfl)⟩

/-- C4 witness: the membership characterization of the Drawing entry,
applied at the format STL with the table equation discharged by rfl. -/
theorem C4_export_matrix_exact_witness :
    SWExportFormat.STL ∈ [SWExportFormat.DXF, SWExportFormat.PDF] ↔
      (SWExportFormat.STL = SWExportFormat.DXF ∨
       SWExportFormat.STL = SWExportFormat.PDF) :=
  (C4_export_matrix_exact.2.2.2.2 SWExportFormat.STL).1 _ rfl

/-- Erasing the first occurrence of a string does not disturb the sublist of
entries different from it. -/
lemma filter_ne_erase_sentinel (l : List String) (a : String) :
    (l.erase a).filter (fun s => s ≠ a) = l.filter (fun s => s ≠ a) := by
  induction l with
  | nil => rfl
  | cons x xs ih =>
      by_cases hx : x = a
      · subst hx
        rw [List.erase_cons_head]
        simp [List.filter_cons]
      · rw [List.erase_cons_tail (by simpa using hx)]
        simp only [List.filter_cons, ih]

/-- C8 counterexample: when the vault reports the sentinel twice, the result
of get_configurations still contains it — the claim as stated ( the result
never contains the sentinel, whatever number of times it is reported ) is
false. -/
theorem C8_counterexample :
    "@" ∈ Vault.get_configurations ["@", "@", "Default"] := by decide

/-- C8 amended: get_configurations removes exactly the first occurrence of
the sentinel entry and keeps every other reported entry in its reported
order; consequently, whenever the vault reports the sentinel at most once,
the result never contains it. -/
theorem C8_sentinel_filter (configs : List String) :
    (configs.count "@" ≤ 1 → "@" ∉ Vault.get_configurations configs)
    ∧ (Vault.get_configurations configs).filter (fun s => s ≠ "@") =
        configs.filter (fun s => s ≠ "@")
    ∧ Vault.get_configurations configs = configs.erase "@" := by
  have herase : Vault.get_configurations configs = configs.erase "@" := by
    by_cases h : "@" ∈ configs
    · simp [Vault.get_configurations, h]
    · simp [Vault.get_configurations, h, List.erase_of_not_mem h]
  refine ⟨fun hcount => ?_, ?_, herase⟩
  · rw [herase, ← List.count_eq_zero, List.count_erase_self]
    omega
  · rw [herase]
    exact filter_ne_erase_sentinel configs "@"

/-- C8 witness: the amended theorem instantiated on a report holding the
sentinel once among ordinary configuration names. -/
theorem C8_sentinel_filter_witness :
    "@" ∉ Vault.get_configurations ["Default", "@", "Flat"] ∧
      (Vault.get_configurations ["Default", "@", "Flat"]).filter (fun s => s ≠ "@") =
        (["Default", "@", "Flat"] : List String).filter (fun s => s ≠ "@") :=
  ⟨(C8_sentinel_filter ["Default", "@", "Flat"]).1 (by decide),
   (C8_sentinel_filter ["Default", "@", "Flat"]).2.1⟩

/-- C9: the last-feature lookup does not walk the feature chain.  Because
`for feature in range(count)` rebinds the loop variable to the integers of
range(count), the attribute access feature.GetNext inside the loop raises
AttributeError for every document with at least one reported feature — the
code never follows a next-pointer — whereas the bounded walk the claim
describes ( and the code's own comments intend ) returns the chain's tail.
Evaluated on one- and two-feature chains with matching reported counts. -/
theorem C9_get_last_feature_bug :
    SolidWorks.get_last_feature { chain := ["Base"], count := 1 } =
      Except.error PyError.attributeError
    ∧ last_feature_intended { chain := ["Base"], count := 1 } = some "Base"
    ∧ SolidWorks.get_last_feature { chain := ["Base", "Boss"], count := 2 } =
      Except.error PyError.attributeError
    ∧ last_feature_intended { chain := ["Base", "Boss"], count := 2 } =
      some "Boss"
    ∧ SolidWorks.get_last_feature { chain := ["Base", "Boss"], count := 0 } =
      Except.ok "Base" :=
  ⟨rfl, rfl, rfl, rfl, rfl⟩

/-- C10: the singleton wrapper makes every instantiation after the first
return the instance stored by the first one, silently discarding the later
constructor arguments: Vault ( name B ) after Vault ( name A ) still has
name A, SolidWorks ( version v2 ) after SolidWorks ( version v1 ) still has
version v1, and in general a call with a stored instance returns that
instance unchanged. -/
theorem C10_singleton_discards_later_args (n1 n2 : String) (v1 v2 : Int) :
    (singleton_call (singleton_call none (fun _ => Vault.init n1)).2
        (fun _ => Vault.init n2)).1 = Vault.init n1
    ∧ (singleton_call (singleton_call none (fun _ => Vault.init n1)).2
        (fun _ => Vault.init n2)).1.name = n1
    ∧ (singleton_call (singleton_call none (fun _ => SolidWorks.init v1)).2
        (fun _ => SolidWorks.init v2)).1.version = v1
    ∧ (∀ (inst : VaultInstance) (c : Unit → VaultInstance),
        singleton_call (some inst) c = (inst, some inst)) := by
  refine ⟨rfl, rfl, rfl, fun inst c => rfl⟩

/-- C10 witness: the theorem instantiated at names A, B and versions
2021, 2023. -/
theorem C10_singleton_discards_later_args_witness :
    (singleton_call (singleton_call none (fun _ => Vault.init "A")).2
        (fun _ => Vault.init "B")).1.name = "A"
    ∧ (singleton_call (singleton_call none (fun _ => SolidWorks.init 2021)).2
        (fun _ => SolidWorks.init 2023)).1.version = 2021 :=
  ⟨(C10_singleton_discards_later_args "A" "B" 2021 2023).2.1,
   (C10_singleton_discards_later_args "A" "B" 2021 2023).2.2.1⟩

end SolidWrap
